import Mathlib

/-!
Shallow embedding of the reversible interrupt-driven clock firmware
(`src/main.c`, the seconds variant, and its milliseconds near-duplicate).

Machine integers are modelled as `Nat` with explicit reduction modulo the
type's width where the C arithmetic can wrap.  The two firmware variants
differ only in a handful of constants (width of `time`, the wrap limit,
the timer TOP, the width of the hardware counter register, and which
clock-select bits of the timer control register the Start/Stop action
toggles); those constants are collected in a `Variant` record and the
handlers are defined once over it.
-/

namespace TE328

/-- The per-variant constants of the two clock firmware images.

* seconds variant (`main.c`): `time` is `uint8_t`, wraps at 60, Timer1
  (16-bit counter, TOP 15624), `TCCR1B` starts as `0b00001011` and the
  Start/Stop action toggles its two low clock-select bits.
* milliseconds variant: `time` is `uint16_t`, wraps at 60000, Timer0
  (8-bit counter, TOP 124), `TCCR0B` starts as `0b00000010` and the
  Start/Stop action toggles bit 1 only. -/
structure Variant where
  /-- modulus of the C type of `time` (`2^8` or `2^16`) -/
  timeMod : Nat
  /-- wrap limit of `time` (60 or 60000) -/
  limit : Nat
  /-- the value tested by the negative-overflow check (`255` or `65535`) -/
  underflow : Nat
  /-- the value `time` is set to on negative overflow (`59` or `59999`) -/
  wrapVal : Nat
  /-- TIMER_TOP (`15625 - 1` or `125 - 1`) -/
  top : Nat
  /-- modulus of the hardware counter register (`2^16` for TCNT1, `2^8` for TCNT0) -/
  tcntMod : Nat
  /-- the value of the C assignment `step = -1` in `time`'s unsigned type -/
  stepNeg : Nat
  /-- mask ANDed into the timer control register when stopping
      (`~((1<<1)|(1<<0))` on 8 bits = 252, or `~(1<<1)` = 253) -/
  stopMask : Nat
  /-- bits ORed into the timer control register when starting (3 or 2) -/
  startBits : Nat
  /-- startup value of the timer control register (`0b00001011` or `0b00000010`) -/
  tccrbInit : Nat
  deriving DecidableEq, Repr

/-- Constants of `src/main.c` (seconds variant, Timer1). -/
def secondsVariant : Variant :=
  { timeMod := 256, limit := 60, underflow := 255, wrapVal := 59
    top := 15625 - 1, tcntMod := 65536, stepNeg := 255
    stopMask := 252, startBits := 3, tccrbInit := 0b00001011 }

/-- Constants of the milliseconds variant (Timer0). -/
def msVariant : Variant :=
  { timeMod := 65536, limit := 60000, underflow := 65535, wrapVal := 59999
    top := 125 - 1, tcntMod := 256, stepNeg := 65535
    stopMask := 253, startBits := 2, tccrbInit := 0b00000010 }

/-- The mutable state of one firmware image: the `volatile` globals of the C
source together with the two hardware timer registers it manipulates
(`TCNT` = the counter register, `tccrb` = the clock-control register
`TCCR1B`/`TCCR0B`). -/
@[ext]
structure ClockState where
  /-- `volatile uint8_t time = 0;` (or `uint16_t` in the ms variant) -/
  time : Nat
  /-- `volatile uint8_t step = 1;` (or `uint16_t`) -/
  step : Nat
  /-- `volatile bool clock_running = true;` -/
  clock_running : Bool
  /-- `volatile bool clock_ascending = true;` -/
  clock_ascending : Bool
  /-- the hardware counter register `TCNT1` / `TCNT0` -/
  tcnt : Nat
  /-- the timer control register `TCCR1B` / `TCCR0B` -/
  tccrb : Nat
  /-- `volatile bool start_stop_button_was_pressed = false;` -/
  start_stop_button_was_pressed : Bool
  /-- `volatile bool swap_mode_button_was_pressed = false;` -/
  swap_mode_button_was_pressed : Bool
  /-- `volatile bool reset_button_was_pressed = false;` -/
  reset_button_was_pressed : Bool
  deriving DecidableEq, Repr

/-- The state after the startup code of `main` has run: `time = 0`,
`step = 1`, running and ascending, `TCNT = 0`, control register at its
configured value, all button snapshots false. -/
def initialState (v : Variant) : ClockState :=
  { time := 0, step := 1, clock_running := true, clock_ascending := true
    tcnt := 0, tccrb := v.tccrbInit
    start_stop_button_was_pressed := false
    swap_mode_button_was_pressed := false
    reset_button_was_pressed := false }

/-- The body of the tick ISR on the `time` variable:

```c
time += step;                      // unsigned wrap-around arithmetic
if (time == 60)    { time = 0;  }  // (60000 in the ms variant)
if (time == 255)   { time = 59; }  // (65535 / 59999 in the ms variant)
```
-/
def tick (v : Variant) (step time : Nat) : Nat :=
  let t1 := (time + step) % v.timeMod
  let t2 := if t1 = v.limit then 0 else t1
  let t3 := if t2 = v.underflow then v.wrapVal else t2
  t3

/-- `ISR(TIMER1_COMPA_vect)` / `ISR(TIMER0_COMPA_vect)` as a state map:
it mutates only `time`. -/
def timerCompaIsr (v : Variant) (s : ClockState) : ClockState :=
  { s with time := tick v s.step s.time }

/-- One compare-match opportunity of the hardware timer.  The guard models
the hardware clock gating described in the spec: when the clock-select
bits (the low three bits of `TCCR1B`/`TCCR0B`) are all zero the timer has
no clock source, so the counter is frozen and the compare-match interrupt
cannot fire; otherwise the tick ISR runs. -/
def tickEvent (v : Variant) (s : ClockState) : ClockState :=
  if s.tccrb &&& 7 == 0 then s else timerCompaIsr v s

/-- The button reads at the top of `ISR(PCINT1_vect)`: pin `i` of port C is
active-low, `(PINC & 1<<i) == 0`. -/
def buttonPressed (pinc i : Nat) : Bool :=
  pinc &&& (1 <<< i) == 0

/-- The Start/Stop branch body of `ISR(PCINT1_vect)`:

```c
if (clock_running) { TCCR1B &= ~((1<<1) | (1<<0)); clock_running = false; }
else               { TCCR1B |=  ((1<<1) | (1<<0)); clock_running = true;  }
```
(the ms variant toggles only bit 1, captured by `stopMask`/`startBits`). -/
def startStopAction (v : Variant) (s : ClockState) : ClockState :=
  if s.clock_running then
    { s with tccrb := s.tccrb &&& v.stopMask, clock_running := false }
  else
    { s with tccrb := s.tccrb ||| v.startBits, clock_running := true }

/-- The swap-direction branch body of `ISR(PCINT1_vect)`:

```c
if (clock_ascending) { TCNT1 = TIMER_TOP - TCNT1; step = -1; clock_ascending = false; }
else                 { TCNT1 = TIMER_TOP - TCNT1; step =  1; clock_ascending = true;  }
```
`TIMER_TOP - TCNT1` is computed in the register's unsigned type, hence the
explicit `% tcntMod` with the `+ tcntMod` guard against Nat truncation. -/
def swapModeAction (v : Variant) (s : ClockState) : ClockState :=
  if s.clock_ascending then
    { s with tcnt := (v.top + v.tcntMod - s.tcnt) % v.tcntMod
             step := v.stepNeg, clock_ascending := false }
  else
    { s with tcnt := (v.top + v.tcntMod - s.tcnt) % v.tcntMod
             step := 1, clock_ascending := true }

/-- The reset branch body of `ISR(PCINT1_vect)`: `TCNT1 = 0; time = 0;`. -/
def resetAction (s : ClockState) : ClockState :=
  { s with tcnt := 0, time := 0 }

/-- `ISR(PCINT1_vect)`: read the three button levels from `PINC`, run each
button's action on a detected press edge (pressed now, not pressed at the
previous invocation), then unconditionally store the current levels in the
three snapshot variables. -/
def pcintIsr (v : Variant) (pinc : Nat) (s : ClockState) : ClockState :=
  let start_stop_button_is_pressed := buttonPressed pinc 0
  let swap_mode_button_is_pressed := buttonPressed pinc 1
  let reset_button_is_pressed := buttonPressed pinc 2
  let s1 := if start_stop_button_is_pressed && !s.start_stop_button_was_pressed
            then startStopAction v s else s
  let s2 := if swap_mode_button_is_pressed && !s1.swap_mode_button_was_pressed
            then swapModeAction v s1 else s1
  let s3 := if reset_button_is_pressed && !s2.reset_button_was_pressed
            then resetAction s2 else s2
  { s3 with start_stop_button_was_pressed := start_stop_button_is_pressed
            swap_mode_button_was_pressed := swap_mode_button_is_pressed
            reset_button_was_pressed := reset_button_is_pressed }

/-- The 7-segment lookup table `digits[10]` of the seconds variant,
binary literals as in the source. -/
def digits : List Nat :=
  [0b00111111, 0b00000110, 0b01011011, 0b01001111, 0b01100110,
   0b01101101, 0b01111101, 0b00000111, 0b01111111, 0b01100111]

/-- One iteration of the seconds variant's render loop, as the pair of
values driven onto the two digit ports:

```c
uint8_t current_time = time;
uint8_t time_digit_0 = current_time % 10;
uint8_t time_digit_1 = current_time / 10;
PORTB = digits[time_digit_0];
PORTD = digits[time_digit_1];
```
returns `(PORTB, PORTD)`. -/
def renderSeconds (time : Nat) : Nat × Nat :=
  let current_time := time
  let time_digit_0 := current_time % 10
  let time_digit_1 := current_time / 10
  (digits.getD time_digit_0 0, digits.getD time_digit_1 0)

/-- The relation between `step` and `clock_ascending` maintained by the
firmware: `step` holds the unsigned image of +1 or -1 and `clock_ascending`
mirrors its sign. -/
def stepInv (v : Variant) (s : ClockState) : Prop :=
  (s.step = 1 ∧ s.clock_ascending = true) ∨
  (s.step = v.stepNeg ∧ s.clock_ascending = false)

instance (v : Variant) (s : ClockState) : Decidable (stepInv v s) := by
  unfold stepInv; infer_instance

/-- Models the AVR machine-level access to the 16-bit `time` variable in the
milliseconds variant's render loop, which the C source performs with
interrupts enabled.  The 8-bit CPU reads the two bytes of `time` one at a
time (low byte first); if the tick ISR fires between the two byte reads,
the assembled value combines the low byte of the old value with the high
byte of the new one. -/
def tornReadMs (step time : Nat) : Nat :=
  (time % 256) + 256 * (tick msVariant step time / 256 % 256)

/-! ## Frame lemmas for the three button-action bodies -/

@[simp] theorem startStopAction_time (v : Variant) (s : ClockState) :
    (startStopAction v s).time = s.time := by
  unfold startStopAction; split <;> rfl

@[simp] theorem startStopAction_step (v : Variant) (s : ClockState) :
    (startStopAction v s).step = s.step := by
  unfold startStopAction; split <;> rfl

@[simp] theorem startStopAction_ascending (v : Variant) (s : ClockState) :
    (startStopAction v s).clock_ascending = s.clock_ascending := by
  unfold startStopAction; split <;> rfl

@[simp] theorem startStopAction_tcnt (v : Variant) (s : ClockState) :
    (startStopAction v s).tcnt = s.tcnt := by
  unfold startStopAction; split <;> rfl

@[simp] theorem startStopAction_snap0 (v : Variant) (s : ClockState) :
    (startStopAction v s).start_stop_button_was_pressed = s.start_stop_button_was_pressed := by
  unfold startStopAction; split <;> rfl

@[simp] theorem startStopAction_snap1 (v : Variant) (s : ClockState) :
    (startStopAction v s).swap_mode_button_was_pressed = s.swap_mode_button_was_pressed := by
  unfold startStopAction; split <;> rfl

@[simp] theorem startStopAction_snap2 (v : Variant) (s : ClockState) :
    (startStopAction v s).reset_button_was_pressed = s.reset_button_was_pressed := by
  unfold startStopAction; split <;> rfl

@[simp] theorem swapModeAction_time (v : Variant) (s : ClockState) :
    (swapModeAction v s).time = s.time := by
  unfold swapModeAction; split <;> rfl

@[simp] theorem swapModeAction_running (v : Variant) (s : ClockState) :
    (swapModeAction v s).clock_running = s.clock_running := by
  unfold swapModeAction; split <;> rfl

@[simp] theorem swapModeAction_tccrb (v : Variant) (s : ClockState) :
    (swapModeAction v s).tccrb = s.tccrb := by
  unfold swapModeAction; split <;> rfl

@[simp] theorem swapModeAction_snap0 (v : Variant) (s : ClockState) :
    (swapModeAction v s).start_stop_button_was_pressed = s.start_stop_button_was_pressed := by
  unfold swapModeAction; split <;> rfl

@[simp] theorem swapModeAction_snap1 (v : Variant) (s : ClockState) :
    (swapModeAction v s).swap_mode_button_was_pressed = s.swap_mode_button_was_pressed := by
  unfold swapModeAction; split <;> rfl

@[simp] theorem swapModeAction_snap2 (v : Variant) (s : ClockState) :
    (swapModeAction v s).reset_button_was_pressed = s.reset_button_was_pressed := by
  unfold swapModeAction; split <;> rfl

@[simp] theorem resetAction_time (s : ClockState) : (resetAction s).time = 0 := rfl

@[simp] theorem resetAction_tcnt (s : ClockState) : (resetAction s).tcnt = 0 := rfl

@[simp] theorem resetAction_step (s : ClockState) : (resetAction s).step = s.step := rfl

@[simp] theorem resetAction_running (s : ClockState) :
    (resetAction s).clock_running = s.clock_running := rfl

@[simp] theorem resetAction_ascending (s : ClockState) :
    (resetAction s).clock_ascending = s.clock_ascending := rfl

@[simp] theorem resetAction_tccrb (s : ClockState) : (resetAction s).tccrb = s.tccrb := rfl

@[simp] theorem resetAction_snap0 (s : ClockState) :
    (resetAction s).start_stop_button_was_pressed = s.start_stop_button_was_pressed := rfl

@[simp] theorem resetAction_snap1 (s : ClockState) :
    (resetAction s).swap_mode_button_was_pressed = s.swap_mode_button_was_pressed := rfl

@[simp] theorem resetAction_snap2 (s : ClockState) :
    (resetAction s).reset_button_was_pressed = s.reset_button_was_pressed := rfl

/-! ## General lemmas about the pin-change handler -/

/-- The pin-change handler's `time` is either untouched or zeroed (by reset). -/
theorem pcintIsr_time (v : Variant) (pinc : Nat) (s : ClockState) :
    (pcintIsr v pinc s).time = s.time ∨ (pcintIsr v pinc s).time = 0 := by
  simp only [pcintIsr]
  split <;> split <;> split <;> simp

@[simp] theorem pcintIsr_snap0 (v : Variant) (pinc : Nat) (s : ClockState) :
    (pcintIsr v pinc s).start_stop_button_was_pressed = buttonPressed pinc 0 := by
  simp only [pcintIsr]

@[simp] theorem pcintIsr_snap1 (v : Variant) (pinc : Nat) (s : ClockState) :
    (pcintIsr v pinc s).swap_mode_button_was_pressed = buttonPressed pinc 1 := by
  simp only [pcintIsr]

@[simp] theorem pcintIsr_snap2 (v : Variant) (pinc : Nat) (s : ClockState) :
    (pcintIsr v pinc s).reset_button_was_pressed = buttonPressed pinc 2 := by
  simp only [pcintIsr]

/-- A compare-match opportunity on a timer whose clock-select bits are all
zero leaves the state untouched. -/
theorem tickEvent_stopped (v : Variant) (s : ClockState) (h : s.tccrb &&& 7 = 0) :
    tickEvent v s = s := by
  simp [tickEvent, h]

@[simp] theorem secondsVariant_stopMask : secondsVariant.stopMask = 252 := rfl

@[simp] theorem secondsVariant_startBits : secondsVariant.startBits = 3 := rfl

@[simp] theorem msVariant_stopMask : msVariant.stopMask = 253 := rfl

@[simp] theorem msVariant_startBits : msVariant.startBits = 2 := rfl

/-- Effect of the pin-change handler on the run state when a Start/Stop
press edge is detected and the reset button is not pressed. -/
theorem pcint_ss_edge (v : Variant) (pinc : Nat) (s : ClockState)
    (h0 : buttonPressed pinc 0 = true) (hw : s.start_stop_button_was_pressed = false)
    (h2 : buttonPressed pinc 2 = false) :
    (pcintIsr v pinc s).clock_running = !s.clock_running ∧
    (pcintIsr v pinc s).tccrb =
      (if s.clock_running then s.tccrb &&& v.stopMask else s.tccrb ||| v.startBits) ∧
    (pcintIsr v pinc s).time = s.time := by
  cases hr : s.clock_running <;>
    simp only [pcintIsr, h0, hw, h2, hr, startStopAction, Bool.not_false, Bool.true_and,
      Bool.false_and, if_true, if_false, Bool.false_eq_true] <;>
    split <;> simp

/-! ## Bit-level facts about the 8-bit timer control register -/

set_option maxRecDepth 100000 in
theorem land252_land3 : ∀ b < 256, (b &&& 252) &&& 3 = 0 := by decide

set_option maxRecDepth 100000 in
theorem land252_land7 : ∀ b < 256, b &&& 4 = 0 → (b &&& 252) &&& 7 = 0 := by decide

set_option maxRecDepth 100000 in
theorem lor3_land3 : ∀ b < 256, (b ||| 3) &&& 3 = 3 := by decide

set_option maxRecDepth 100000 in
theorem land253_land2 : ∀ b < 256, (b &&& 253) &&& 2 = 0 := by decide

set_option maxRecDepth 100000 in
theorem land253_land7 : ∀ b < 256, b &&& 5 = 0 → (b &&& 253) &&& 7 = 0 := by decide

set_option maxRecDepth 100000 in
theorem lor2_land2 : ∀ b < 256, (b ||| 2) &&& 2 = 2 := by decide

/-! ## The claims -/

/-- C1: for every `time` in `[0, LIMIT)` (`LIMIT = 60` in the seconds
variant, `60000` in the milliseconds variant), one invocation of the timer
tick handler yields `(time+1) mod LIMIT` when `step = +1` and
`(time-1+LIMIT) mod LIMIT` when `step = -1` (whose unsigned image is 255,
resp. 65535). -/
theorem C1_tick_handler_mod_limit :
    (∀ s : ClockState, s.time < 60 →
      (s.step = 1 → (timerCompaIsr secondsVariant s).time = (s.time + 1) % 60) ∧
      (s.step = 255 → (timerCompaIsr secondsVariant s).time = (s.time + 60 - 1) % 60)) ∧
    (∀ s : ClockState, s.time < 60000 →
      (s.step = 1 → (timerCompaIsr msVariant s).time = (s.time + 1) % 60000) ∧
      (s.step = 65535 → (timerCompaIsr msVariant s).time = (s.time + 60000 - 1) % 60000)) := by
  constructor <;> intro s ht <;> constructor <;> intro hs <;>
    simp only [timerCompaIsr, tick, secondsVariant, msVariant, hs] <;>
    split <;> split <;> omega

theorem C1_tick_handler_mod_limit_witness :
    (timerCompaIsr secondsVariant { initialState secondsVariant with time := 59 }).time
      = (59 + 1) % 60 ∧
    (timerCompaIsr msVariant { initialState msVariant with step := 65535 }).time
      = (0 + 60000 - 1) % 60000 :=
  ⟨(C1_tick_handler_mod_limit.1 { initialState secondsVariant with time := 59 }
      (by decide)).1 (by decide),
   (C1_tick_handler_mod_limit.2 { initialState msVariant with step := 65535 }
      (by decide)).2 (by decide)⟩

/-- C2: `time` always lies in `[0, LIMIT)`: it starts at 0 and both the
tick handler (with `step` equal to the unsigned image of +1 or -1) and the
pin-change handler, for every pin input, map a state with `time` in range
to a state with `time` in range. -/
theorem C2_time_range_invariant :
    ((initialState secondsVariant).time = 0 ∧ (initialState msVariant).time = 0) ∧
    (∀ s : ClockState, s.time < 60 → (s.step = 1 ∨ s.step = 255) →
      (timerCompaIsr secondsVariant s).time < 60 ∧
      ∀ pinc, (pcintIsr secondsVariant pinc s).time < 60) ∧
    (∀ s : ClockState, s.time < 60000 → (s.step = 1 ∨ s.step = 65535) →
      (timerCompaIsr msVariant s).time < 60000 ∧
      ∀ pinc, (pcintIsr msVariant pinc s).time < 60000) := by
  refine ⟨⟨rfl, rfl⟩, ?_, ?_⟩ <;> intro s ht hs <;>
    refine ⟨?_, fun pinc => ?_⟩
  · rcases hs with hs | hs <;>
      simp only [timerCompaIsr, tick, secondsVariant, hs] <;> split <;> split <;> omega
  · rcases pcintIsr_time secondsVariant pinc s with h | h <;> omega
  · rcases hs with hs | hs <;>
      simp only [timerCompaIsr, tick, msVariant, hs] <;> split <;> split <;> omega
  · rcases pcintIsr_time msVariant pinc s with h | h <;> omega

theorem C2_time_range_invariant_witness :
    (timerCompaIsr secondsVariant (initialState secondsVariant)).time < 60 ∧
    (pcintIsr secondsVariant 3 (initialState secondsVariant)).time < 60 :=
  ⟨(C2_time_range_invariant.2.1 (initialState secondsVariant) (by decide) (Or.inl rfl)).1,
   (C2_time_range_invariant.2.1 (initialState secondsVariant) (by decide) (Or.inl rfl)).2 3⟩

/-- C3: holding any combination of buttons across consecutive pin-change
invocations triggers each action at most once: a second invocation of the
handler with the same pin levels is the identity on the result of the
first, because the snapshot variables are unconditionally updated at the
end of every invocation. -/
theorem C3_held_button_at_most_once (v : Variant) (pinc : Nat) (s : ClockState) :
    pcintIsr v pinc (pcintIsr v pinc s) = pcintIsr v pinc s := by
  conv_lhs => rw [pcintIsr]
  simp only [pcintIsr_snap0, pcintIsr_snap1, pcintIsr_snap2, Bool.and_not_self,
    Bool.false_eq_true, if_false]
  ext <;> simp

/-- C4: for every hardware counter value in `[0, TOP]` and every starting
direction (with `clock_ascending` mirroring the sign of `step`), one
swap-direction action remaps the counter as `new = TOP - current`, and two
swap-direction actions in succession restore the counter, `step` and
`clock_ascending`. -/
theorem C4_swap_direction_roundtrip :
    (∀ s : ClockState, s.tcnt ≤ 15624 → stepInv secondsVariant s →
      (swapModeAction secondsVariant s).tcnt = 15624 - s.tcnt ∧
      (swapModeAction secondsVariant (swapModeAction secondsVariant s)).tcnt = s.tcnt ∧
      (swapModeAction secondsVariant (swapModeAction secondsVariant s)).step = s.step ∧
      (swapModeAction secondsVariant (swapModeAction secondsVariant s)).clock_ascending
        = s.clock_ascending) ∧
    (∀ s : ClockState, s.tcnt ≤ 124 → stepInv msVariant s →
      (swapModeAction msVariant s).tcnt = 124 - s.tcnt ∧
      (swapModeAction msVariant (swapModeAction msVariant s)).tcnt = s.tcnt ∧
      (swapModeAction msVariant (swapModeAction msVariant s)).step = s.step ∧
      (swapModeAction msVariant (swapModeAction msVariant s)).clock_ascending
        = s.clock_ascending) := by
  constructor <;> intro s htc hinv <;>
    rcases hinv with ⟨h1, h2⟩ | ⟨h1, h2⟩ <;>
    simp only [swapModeAction, secondsVariant, msVariant, h1, h2, if_true, if_false,
      Bool.false_eq_true, Bool.true_eq_false] <;>
    exact ⟨by omega, by omega, by trivial, by trivial⟩

theorem C4_swap_direction_roundtrip_witness :
    (swapModeAction secondsVariant { initialState secondsVariant with tcnt := 100 }).tcnt
      = 15624 - 100 ∧
    (swapModeAction secondsVariant
        (swapModeAction secondsVariant
          { initialState secondsVariant with tcnt := 100 })).tcnt = 100 ∧
    (swapModeAction secondsVariant
        (swapModeAction secondsVariant
          { initialState secondsVariant with tcnt := 100 })).step = 1 ∧
    (swapModeAction secondsVariant
        (swapModeAction secondsVariant
          { initialState secondsVariant with tcnt := 100 })).clock_ascending = true :=
  C4_swap_direction_roundtrip.1 { initialState secondsVariant with tcnt := 100 }
    (by decide) (by decide)

/-- C5: when `clock_running` is true and a Start/Stop press edge is
detected (and the reset button is not pressed), the handler sets
`clock_running` to false, clears the timer's clock-source/enable bits
without altering `time`, and the stopped timer produces no further tick
(a compare-match opportunity leaves the state unchanged); when the edge is
detected with `clock_running` false, it restores those bits and sets
`clock_running` to true.  The register-bound hypotheses say the control
register is an 8-bit value whose clock-select bits outside the toggled
ones are clear, as configured at startup. -/
theorem C5_start_stop_toggle :
    (∀ (pinc : Nat) (s : ClockState),
      buttonPressed pinc 0 = true → s.start_stop_button_was_pressed = false →
      buttonPressed pinc 2 = false → s.tccrb < 256 →
      (s.clock_running = true → s.tccrb &&& 4 = 0 →
        (pcintIsr secondsVariant pinc s).clock_running = false ∧
        (pcintIsr secondsVariant pinc s).tccrb &&& 3 = 0 ∧
        (pcintIsr secondsVariant pinc s).time = s.time ∧
        tickEvent secondsVariant (pcintIsr secondsVariant pinc s)
          = pcintIsr secondsVariant pinc s) ∧
      (s.clock_running = false →
        (pcintIsr secondsVariant pinc s).clock_running = true ∧
        (pcintIsr secondsVariant pinc s).tccrb &&& 3 = 3 ∧
        (pcintIsr secondsVariant pinc s).time = s.time)) ∧
    (∀ (pinc : Nat) (s : ClockState),
      buttonPressed pinc 0 = true → s.start_stop_button_was_pressed = false →
      buttonPressed pinc 2 = false → s.tccrb < 256 →
      (s.clock_running = true → s.tccrb &&& 5 = 0 →
        (pcintIsr msVariant pinc s).clock_running = false ∧
        (pcintIsr msVariant pinc s).tccrb &&& 2 = 0 ∧
        (pcintIsr msVariant pinc s).time = s.time ∧
        tickEvent msVariant (pcintIsr msVariant pinc s)
          = pcintIsr msVariant pinc s) ∧
      (s.clock_running = false →
        (pcintIsr msVariant pinc s).clock_running = true ∧
        (pcintIsr msVariant pinc s).tccrb &&& 2 = 2 ∧
        (pcintIsr msVariant pinc s).time = s.time)) := by
  constructor <;> intro pinc s h0 hw h2 hb <;>
    obtain ⟨hrun, htccrb, htime⟩ := pcint_ss_edge _ pinc s h0 hw h2 <;>
    constructor
  · intro hr h4
    rw [hr] at hrun htccrb
    simp only [if_true, secondsVariant_stopMask] at htccrb
    refine ⟨by simpa using hrun, ?_, htime, ?_⟩
    · rw [htccrb]; exact land252_land3 s.tccrb hb
    · exact tickEvent_stopped _ _ (by rw [htccrb]; exact land252_land7 s.tccrb hb h4)
  · intro hr
    rw [hr] at hrun htccrb
    simp only [Bool.false_eq_true, if_false, secondsVariant_startBits] at htccrb
    refine ⟨by simpa using hrun, ?_, htime⟩
    rw [htccrb]; exact lor3_land3 s.tccrb hb
  · intro hr h4
    rw [hr] at hrun htccrb
    simp only [if_true, msVariant_stopMask] at htccrb
    refine ⟨by simpa using hrun, ?_, htime, ?_⟩
    · rw [htccrb]; exact land253_land2 s.tccrb hb
    · exact tickEvent_stopped _ _ (by rw [htccrb]; exact land253_land7 s.tccrb hb h4)
  · intro hr
    rw [hr] at hrun htccrb
    simp only [Bool.false_eq_true, if_false, msVariant_startBits] at htccrb
    refine ⟨by simpa using hrun, ?_, htime⟩
    rw [htccrb]; exact lor2_land2 s.tccrb hb

theorem C5_start_stop_toggle_witness :
    (pcintIsr secondsVariant 6 (initialState secondsVariant)).clock_running = false ∧
    (pcintIsr secondsVariant 6 (initialState secondsVariant)).tccrb &&& 3 = 0 ∧
    (pcintIsr secondsVariant 6 (initialState secondsVariant)).time
      = (initialState secondsVariant).time ∧
    tickEvent secondsVariant (pcintIsr secondsVariant 6 (initialState secondsVariant))
      = pcintIsr secondsVariant 6 (initialState secondsVariant) :=
  (C5_start_stop_toggle.1 6 (initialState secondsVariant)
    (by decide) (by decide) (by decide) (by decide)).1 (by decide) (by decide)

/-- C6: for every prior state and pin input, a detected press edge of the
Reset button (pressed now, snapshot false) sets both the hardware counter
register and `time` to 0, whatever else the same invocation did. -/
theorem C6_reset_zeroes (v : Variant) (pinc : Nat) (s : ClockState)
    (h2 : buttonPressed pinc 2 = true) (hw : s.reset_button_was_pressed = false) :
    (pcintIsr v pinc s).time = 0 ∧ (pcintIsr v pinc s).tcnt = 0 := by
  simp only [pcintIsr]
  split <;> split <;> simp [h2, hw]

theorem C6_reset_zeroes_witness :
    (pcintIsr secondsVariant 3
        { initialState secondsVariant with time := 42, tcnt := 1234 }).time = 0 ∧
    (pcintIsr secondsVariant 3
        { initialState secondsVariant with time := 42, tcnt := 1234 }).tcnt = 0 :=
  C6_reset_zeroes secondsVariant 3
    { initialState secondsVariant with time := 42, tcnt := 1234 } (by decide) (by decide)

/-- C7: `step` is always the unsigned image of +1 or -1 and
`clock_ascending` is true exactly when it is +1: the relation holds at
startup (`step = 1`, ascending) and is preserved by every invocation of
the tick handler and of the pin-change handler, for either variant's
constants. -/
theorem C7_step_sign_invariant (v : Variant) :
    stepInv v (initialState v) ∧
    ∀ s : ClockState, stepInv v s →
      stepInv v (timerCompaIsr v s) ∧
      ∀ pinc : Nat, stepInv v (pcintIsr v pinc s) := by
  refine ⟨Or.inl ⟨rfl, rfl⟩, fun s hs => ⟨hs, fun pinc => ?_⟩⟩
  simp only [pcintIsr]
  split <;> split <;> split <;>
    rcases hs with ⟨h1, h2⟩ | ⟨h1, h2⟩ <;>
    simp [stepInv, swapModeAction, h1, h2]

theorem C7_step_sign_invariant_witness :
    stepInv secondsVariant (initialState secondsVariant) ∧
    stepInv secondsVariant (pcintIsr secondsVariant 5 (initialState secondsVariant)) :=
  ⟨(C7_step_sign_invariant secondsVariant).1,
   ((C7_step_sign_invariant secondsVariant).2 (initialState secondsVariant)
      (by decide)).2 5⟩

/-- C8: in the milliseconds variant the render loop reads the 16-bit
`time` with interrupts enabled, so the two byte accesses of the read can
be separated by a tick: at `time = 5887` the torn read assembles 6143,
which is neither the old nor the new value of `time`, and the displayed
seconds digit becomes 6 instead of 5.  This exhibits the failing input for
the claim that the read is performed with interrupts disabled. -/
theorem C8_ms_read_torn :
    tick msVariant 1 5887 = 5888 ∧
    tornReadMs 1 5887 = 6143 ∧
    tornReadMs 1 5887 / 1000 ≠ 5887 / 1000 ∧
    tornReadMs 1 5887 / 1000 ≠ tick msVariant 1 5887 / 1000 := by
  refine ⟨by decide, by decide, by decide, by decide⟩

/-- C9: in the seconds variant, for every displayed `time` the render loop
drives the ones-digit port with the lookup-table entry for `time mod 10`
and the tens-digit port with the entry for `time div 10`, the table being
`{0x3F,0x06,0x5B,0x4F,0x66,0x6D,0x7D,0x07,0x7F,0x67}`; in particular
`time = 7` produces ones pattern `0x07` and tens pattern `0x3F`. -/
theorem C9_render_lookup :
    (∀ t, t < 60 →
      renderSeconds t
        = ([0x3F, 0x06, 0x5B, 0x4F, 0x66, 0x6D, 0x7D, 0x07, 0x7F, 0x67].getD (t % 10) 0,
           [0x3F, 0x06, 0x5B, 0x4F, 0x66, 0x6D, 0x7D, 0x07, 0x7F, 0x67].getD (t / 10) 0)) ∧
    renderSeconds 7 = (0x07, 0x3F) :=
  ⟨fun _ _ => rfl, rfl⟩

theorem C9_render_lookup_witness :
    renderSeconds 7
      = ([0x3F, 0x06, 0x5B, 0x4F, 0x66, 0x6D, 0x7D, 0x07, 0x7F, 0x67].getD (7 % 10) 0,
         [0x3F, 0x06, 0x5B, 0x4F, 0x66, 0x6D, 0x7D, 0x07, 0x7F, 0x67].getD (7 / 10) 0) :=
  C9_render_lookup.1 7 (by decide)

/-- C10: a detected press edge of the swap button alone (start/stop and
reset buttons not pressed) never writes `time`, `clock_running` or the
timer control register; it changes only the hardware counter, `step` and
`clock_ascending`, exactly as the swap action body does. -/
theorem C10_swap_frame (v : Variant) (pinc : Nat) (s : ClockState)
    (h0 : buttonPressed pinc 0 = false) (h1 : buttonPressed pinc 1 = true)
    (h2 : buttonPressed pinc 2 = false) (hw : s.swap_mode_button_was_pressed = false) :
    (pcintIsr v pinc s).time = s.time ∧
    (pcintIsr v pinc s).clock_running = s.clock_running ∧
    (pcintIsr v pinc s).tccrb = s.tccrb ∧
    (pcintIsr v pinc s).tcnt = (swapModeAction v s).tcnt ∧
    (pcintIsr v pinc s).step = (swapModeAction v s).step ∧
    (pcintIsr v pinc s).clock_ascending = (swapModeAction v s).clock_ascending := by
  simp [pcintIsr, h0, h1, h2, hw]

theorem C10_swap_frame_witness :
    (pcintIsr secondsVariant 5 (initialState secondsVariant)).time
      = (initialState secondsVariant).time ∧
    (pcintIsr secondsVariant 5 (initialState secondsVariant)).clock_running
      = (initialState secondsVariant).clock_running ∧
    (pcintIsr secondsVariant 5 (initialState secondsVariant)).tccrb
      = (initialState secondsVariant).tccrb ∧
    (pcintIsr secondsVariant 5 (initialState secondsVariant)).tcnt
      = (swapModeAction secondsVariant (initialState secondsVariant)).tcnt ∧
    (pcintIsr secondsVariant 5 (initialState secondsVariant)).step
      = (swapModeAction secondsVariant (initialState secondsVariant)).step ∧
    (pcintIsr secondsVariant 5 (initialState secondsVariant)).clock_ascending
      = (swapModeAction secondsVariant (initialState secondsVariant)).clock_ascending :=
  C10_swap_frame secondsVariant 5 (initialState secondsVariant)
    (by decide) (by decide) (by decide) (by decide)

end TE328
